import Mathlib

/-!
Verification of the `snitch-transform` transformation core
(`src/transform.rs`): the request validator and the three transformers
`overwrite`, `obfuscate`, `mask`.

The JSON path-query engine (the `streamdal_gjson` crate) and the digest
function (the `sha256` crate) are external collaborators of the
repository; they are modelled here as abstract capabilities following
the Document Accessor / Digest contracts of the specification, and the
transformers are parameterised over them.  The masking arithmetic is
modelled at the byte level as in the source: lengths are UTF-8 byte
counts, the prefix slice is a byte slice, and the panic of a slice index
off a character boundary is modelled as an absent result.
-/

set_option autoImplicit false

/-- Modelled from the spec: the kind of a value addressed by a path
(Document Accessor capability; the `streamdal_gjson` crate is not part
of this repository).  One of String, Number, Bool, Object, Array, Null. -/
inductive GKind where
  | String
  | Number
  | Bool
  | Object
  | Array
  | Null
deriving DecidableEq, Repr

/-- Modelled from the spec: the value returned by the accessor for a
document and a path: its kind, its unquoted textual content (`.str()`),
and whether the path exists in the document (`.exists()`). -/
structure GVal where
  kind : GKind
  str : String
  exs : Bool
deriving DecidableEq, Repr

/-- Modelled from the spec: the Document Accessor capability
(`streamdal_gjson`): document validity, path lookup, and byte-level
overwrite of the value at a path with a replacement literal. -/
structure Gjson where
  valid : String → Bool
  get : String → String → GVal
  setOverwrite : String → String → String → Except String String

/-- The error type of the transformation core (`TransformError`). -/
inductive TransformError where
  | Generic (msg : String)
deriving DecidableEq, Repr

/-- The transformation request (`Request`): raw document bytes, dotted
path, and replacement value (used only by `overwrite`). -/
structure Request where
  data : List Nat
  path : String
  value : String
deriving DecidableEq, Repr

/-- One decoded UTF-8 scalar value: reads the first code point off the
byte list, rejecting overlong encodings, surrogates, values above
U+10FFFF, and truncated or malformed sequences.  Returns the code point
and the number of bytes consumed. -/
def utf8DecodeOne : List Nat → Option (Nat × Nat)
  | [] => none
  | b1 :: rest =>
    if b1 < 0x80 then some (b1, 1)
    else if b1 < 0xC2 then none
    else if b1 < 0xE0 then
      match rest with
      | b2 :: _ =>
        if 0x80 ≤ b2 ∧ b2 < 0xC0 then
          some ((b1 - 0xC0) * 0x40 + (b2 - 0x80), 2)
        else none
      | _ => none
    else if b1 < 0xF0 then
      match rest with
      | b2 :: b3 :: _ =>
        if (0x80 ≤ b2 ∧ b2 < 0xC0) ∧ (0x80 ≤ b3 ∧ b3 < 0xC0) then
          let c := (b1 - 0xE0) * 0x1000 + (b2 - 0x80) * 0x40 + (b3 - 0x80)
          if c < 0x800 ∨ (0xD800 ≤ c ∧ c < 0xE000) then none else some (c, 3)
        else none
      | _ => none
    else if b1 < 0xF5 then
      match rest with
      | b2 :: b3 :: b4 :: _ =>
        if (0x80 ≤ b2 ∧ b2 < 0xC0) ∧ (0x80 ≤ b3 ∧ b3 < 0xC0) ∧
            (0x80 ≤ b4 ∧ b4 < 0xC0) then
          let c := (b1 - 0xF0) * 0x40000 + (b2 - 0x80) * 0x1000 +
            (b3 - 0x80) * 0x40 + (b4 - 0x80)
          if c < 0x10000 ∨ 0x110000 ≤ c then none else some (c, 4)
        else none
      | _ => none
    else none

/-- Fuel-indexed UTF-8 decoding loop: each decoded code point consumes
at least one byte, so fuel equal to the byte count always suffices. -/
def utf8DecodeFuel : Nat → List Nat → Option (List Char)
  | _, [] => some []
  | 0, _ :: _ => none
  | fuel + 1, b1 :: rest =>
    match utf8DecodeOne (b1 :: rest) with
    | none => none
    | some (c, k) =>
      match utf8DecodeFuel fuel (List.drop (k - 1) rest) with
      | none => none
      | some cs =>
        if c.isValidChar then some (Char.ofNat c :: cs) else none

/-- Decodes a byte list as UTF-8 text, or `none` when the bytes are not
valid UTF-8 (models `std::str::from_utf8`). -/
def utf8Decode (bytes : List Nat) : Option (List Char) :=
  utf8DecodeFuel bytes.length bytes

/-- The byte list decoded as a `String`, when it is valid UTF-8. -/
def utf8DecodeString (bytes : List Nat) : Option String :=
  (utf8Decode bytes).map (fun cs => ⟨cs⟩)

/-- The UTF-8 encoding of one character (1 to 4 bytes). -/
def utf8EncodeChar (c : Char) : List Nat :=
  let n := c.toNat
  if n < 0x80 then [n]
  else if n < 0x800 then
    [0xC0 + n / 0x40, 0x80 + n % 0x40]
  else if n < 0x10000 then
    [0xE0 + n / 0x1000, 0x80 + (n / 0x40) % 0x40, 0x80 + n % 0x40]
  else
    [0xF0 + n / 0x40000, 0x80 + (n / 0x1000) % 0x40,
      0x80 + (n / 0x40) % 0x40, 0x80 + n % 0x40]

/-- The UTF-8 bytes of a string, as Rust views `str` content. -/
def utf8Encode (s : String) : List Nat :=
  (s.data.map utf8EncodeChar).flatten

/-- `str::len()`: the length of a string in UTF-8 bytes, which is what
the masking arithmetic of `_mask` measures. -/
def byteLen (s : String) : Nat :=
  (utf8Encode s).length

/-- `convert_bytes_to_string`: UTF-8 decoding of the request bytes, as
an `Except` (the Rust `Utf8Error` display detail is elided from the
message). -/
def convert_bytes_to_string (bytes : List Nat) : Except TransformError String :=
  match utf8DecodeString bytes with
  | some s => .ok s
  | none => .error (.Generic "unable to parse data as UTF-8: invalid byte sequence")

/-- The structured outcome of one validation failure inside
`validate_request`, in source order.  The invalid-JSON variant carries
the value of `String::from_utf8(req.data.to_vec())` interpolated into
its message: `none` models the case where that `unwrap` would panic. -/
inductive VError where
  | EmptyPath
  | EmptyData
  | EmptyValue
  | BadUtf8
  | BadJson (doc : Option String)
  | PathNotFound (path : String)
deriving DecidableEq, Repr

/-- Renders a structured validation failure as the source's
`TransformError::Generic` message. -/
def renderVError : VError → TransformError
  | .EmptyPath => .Generic "path cannot be empty"
  | .EmptyData => .Generic "data cannot be empty"
  | .EmptyValue => .Generic "value cannot be empty"
  | .BadUtf8 => .Generic "unable to parse data as UTF-8: invalid byte sequence"
  | .BadJson doc =>
    .Generic ("data is not valid JSON: " ++ doc.getD "<panic: bytes are not valid UTF-8>")
  | .PathNotFound path =>
    .Generic ("path \x27" ++ path ++ "\x27 not found in data")

/-- `validate_request`, structured: path non-empty, data non-empty,
(when `value_check`) value non-empty, data valid UTF-8, data valid
JSON, path exists — in source order, short-circuiting at the first
failure. -/
def validateE (G : Gjson) (req : Request) (value_check : Bool) : Except VError Unit :=
  if req.path = "" then .error .EmptyPath
  else if req.data = [] then .error .EmptyData
  else if value_check = true ∧ req.value = "" then .error .EmptyValue
  else
    match utf8DecodeString req.data with
    | none => .error .BadUtf8
    | some s =>
      if ¬ (G.valid s = true) then .error (.BadJson (utf8DecodeString req.data))
      else if ¬ ((G.get s req.path).exs = true) then .error (.PathNotFound req.path)
      else .ok ()

/-- `validate_request`: the structured validator with its failures
rendered as `TransformError::Generic` messages. -/
def validate_request (G : Gjson) (req : Request) (value_check : Bool) :
    Except TransformError Unit :=
  (validateE G req value_check).mapError renderVError

/-- `overwrite`: validate (replacement value required), then replace the
value at the path with the replacement text exactly as given. -/
def overwrite (G : Gjson) (req : Request) : Except TransformError String :=
  match validate_request G req true with
  | .error e => .error e
  | .ok _ =>
    match convert_bytes_to_string req.data with
    | .error e => .error e
    | .ok s =>
      match G.setOverwrite s req.path req.value with
      | .error e => .error (.Generic ("unable to overwrite data: " ++ e))
      | .ok d => .ok d

/-- `_obfuscate`: digest the unquoted content at the path and overwrite
the value with the quoted literal `"sha256:<digest>"`.  `D` is the
Digest capability (the `sha256` crate, external to this repository). -/
def _obfuscate (G : Gjson) (D : String → String) (data path : String) :
    Except TransformError String :=
  let hashed := D (G.get data path).str
  let obfuscated := "\"sha256:" ++ hashed ++ "\""
  match G.setOverwrite data path obfuscated with
  | .error e => .error (.Generic ("unable to obfuscate data: " ++ e))
  | .ok d => .ok d

/-- `obfuscate`: validate (no replacement value required), then dispatch
on the kind of the value at the path: only String is accepted. -/
def obfuscate (G : Gjson) (D : String → String) (req : Request) :
    Except TransformError String :=
  match validate_request G req false with
  | .error e => .error e
  | .ok _ =>
    match convert_bytes_to_string req.data with
    | .error e => .error e
    | .ok s =>
      match (G.get s req.path).kind with
      | .String => _obfuscate G D s req.path
      | _ =>
        .error (.Generic
          ("unable to mask data: path \x27" ++ req.path ++ "\x27 is not a string or number"))

/-- `num_chars_to_mask` for a content of length `len`:
`(0.8 * len as f64).round() as usize` in the source.  The fractional
part of `0.8 * len` is one of 0, .2, .4, .6, .8, never .5, so rounding
to the nearest integer is unambiguous and equals `(8 * len + 5) / 10`
in exact arithmetic; the `f64` computation agrees for every feasible
string length. -/
def num_chars_to_mask (len : Nat) : Nat :=
  (8 * len + 5) / 10

/-- The masked content, at byte level as in the source: the slice of the
first `L - num_chars_to_mask L` bytes of the content (with `L` the UTF-8
byte length `str::len()`), followed by `num_chars_to_mask L` repetitions
of the mask character.  The Rust slice `[0..num_chars_to_skip]` panics
when the index is not a character boundary, which is exactly when the
truncated byte prefix does not decode; `none` models that panic. -/
def maskContent (s : String) (c : Char) : Option String :=
  match utf8Decode ((utf8Encode s).take (byteLen s - num_chars_to_mask (byteLen s))) with
  | none => none
  | some pre =>
    some ⟨pre ++ List.replicate (num_chars_to_mask (byteLen s)) c⟩

/-- `_mask`: mask the content at the path with the given character,
re-quoting the result when `quote` is set, and overwrite the value;
`none` is the panic of the byte slice off a character boundary. -/
def _mask (G : Gjson) (data path : String) (mask_char : Char) (quote : Bool) :
    Option (Except TransformError String) :=
  match maskContent (G.get data path).str mask_char with
  | none => none
  | some masked0 =>
    let masked := if quote then "\"" ++ masked0 ++ "\"" else masked0
    some (match G.setOverwrite data path masked with
      | .error e => .error (.Generic ("unable to mask data: " ++ e))
      | .ok d => .ok d)

/-- `mask`: validate (no replacement value required), then dispatch on
the kind of the value at the path: String masks with `*` re-quoted,
Number masks with `0` unquoted, anything else fails; `none` models the
panic inside `_mask`. -/
def mask (G : Gjson) (req : Request) : Option (Except TransformError String) :=
  match validate_request G req false with
  | .error e => some (.error e)
  | .ok _ =>
    match convert_bytes_to_string req.data with
    | .error e => some (.error e)
    | .ok s =>
      match (G.get s req.path).kind with
      | .String => _mask G s req.path '*' true
      | .Number => _mask G s req.path '0' false
      | _ =>
        some (.error (.Generic
          ("unable to mask data: path \x27" ++ req.path ++ "\x27 is not a string or number")))

/-- A string content wrapped in double quotes, as the transformers build
JSON string literals. -/
def quoteStr (s : String) : String := "\"" ++ s ++ "\""

/-- Modelled from the spec: the canonical text of a value — a String
kind carries surrounding quotes in the document, any other kind is its
raw text. -/
def gvalText (v : GVal) : String :=
  if v.kind = GKind.String then quoteStr v.str else v.str

/-- Modelled from the spec: accessor write/read contract for quoted
string literals — after overwriting the value at a path with a quoted
string literal, reading that path yields a String value whose unquoted
content is the literal's content. -/
def SetGetString (G : Gjson) : Prop :=
  ∀ d p s d', G.setOverwrite d p (quoteStr s) = .ok d' →
    (G.get d' p).kind = GKind.String ∧ (G.get d' p).str = s

/-- Modelled from the spec: accessor write/read contract for arbitrary
replacement literals — after `set_value_overwrite`, the value read back
at the path has exactly the replacement as its canonical text. -/
def SetGetText (G : Gjson) : Prop :=
  ∀ d p t d', G.setOverwrite d p t = .ok d' → gvalText (G.get d' p) = t

/-- Modelled from the spec: the accessor's overwrite succeeds whenever
the path resolves to an existing value. -/
def SetTotal (G : Gjson) : Prop :=
  ∀ d p t, (G.get d p).exs = true → ∃ d', G.setOverwrite d p t = .ok d'

/-- How the concrete accessor instance reads back a written literal: a
quoted literal is a String value with the quotes stripped, anything
else is reported as a bare Number-kinded literal. -/
def litGVal (t : String) : GVal :=
  match t.data with
  | [] => ⟨GKind.Number, t, true⟩
  | c :: rest =>
    if c = '\x22' ∧ rest.getLast? = some '\x22' ∧ rest ≠ [] then
      ⟨GKind.String, ⟨rest.dropLast⟩, true⟩
    else ⟨GKind.Number, t, true⟩

/-- The scenario document of the specification (and of the repository's
tests). -/
def scenDoc : String :=
  "\x7b\"foo\":\"bar\",\"baz\":\x7b\"qux\":\"quux\"\x7d,\"recipient\":\"tledwichb9@wsj.com\",\"bool\":true\x7d"

/-- Modelled from the spec: the lookup half of a concrete Document
Accessor instance.  Documents returned by its overwrite are tagged with
a leading control character and read back via `litGVal`; the scenario
document's paths are tabulated per JSON semantics. -/
def scenGet (d p : String) : GVal :=
  match d.data with
  | '\x01' :: rest => litGVal ⟨rest⟩
  | _ =>
    if d = scenDoc then
      if p = "foo" then ⟨GKind.String, "bar", true⟩
      else if p = "baz" then ⟨GKind.Object, "\x7b\"qux\":\"quux\"\x7d", true⟩
      else if p = "baz.qux" then ⟨GKind.String, "quux", true⟩
      else if p = "recipient" then ⟨GKind.String, "tledwichb9@wsj.com", true⟩
      else if p = "bool" then ⟨GKind.Bool, "true", true⟩
      else ⟨GKind.Null, "", false⟩
    else ⟨GKind.Null, "", false⟩

/-- Modelled from the spec: the overwrite half of the concrete accessor
instance: it always succeeds and returns the written literal behind a
tag character, abstracting the result document to the written value. -/
def cSet (_d _p t : String) : Except String String :=
  .ok ⟨'\x01' :: t.data⟩

/-- Modelled from the spec: a concrete Document Accessor instance,
used to evaluate the transformers on concrete requests. -/
def cG : Gjson :=
  { valid := fun _ => true, get := scenGet, setOverwrite := cSet }

/-- Modelled from the spec: an accessor that declares every document
invalid, exercising the invalid-JSON validation branch. -/
def invalidJsonG : Gjson :=
  { valid := fun _ => false
    get := fun _ _ => ⟨GKind.Null, "", false⟩
    setOverwrite := fun _ _ _ => .error "invalid" }

/-- The ASCII bytes of a string, for building request data. -/
def asciiBytes (s : String) : List Nat := s.data.map (fun c => c.toNat)

/-- A document with multibyte string values, exercising the byte-level
masking arithmetic: path `k` holds the two-character content with UTF-8
byte length 3, path `e` the one-character content with byte length 2. -/
def uDoc : String := "\x7b\"k\":\"éa\",\"e\":\"é\"\x7d"

/-- Modelled from the spec: lookup half of a concrete accessor for the
multibyte document, with written literals read back via `litGVal`. -/
def uGet (d p : String) : GVal :=
  match d.data with
  | '\x01' :: rest => litGVal ⟨rest⟩
  | _ =>
    if d = uDoc then
      if p = "k" then ⟨GKind.String, "éa", true⟩
      else if p = "e" then ⟨GKind.String, "é", true⟩
      else ⟨GKind.Null, "", false⟩
    else ⟨GKind.Null, "", false⟩

/-- Modelled from the spec: a concrete Document Accessor instance over
the multibyte document. -/
def uG : Gjson :=
  { valid := fun _ => true, get := uGet, setOverwrite := cSet }

/-- The scenario request: scenario document, path `recipient`, no
replacement value. -/
def scenReq : Request := ⟨asciiBytes scenDoc, "recipient", ""⟩

/-- The document produced by masking the scenario request with the
concrete accessor. -/
def scenMaskedDoc : String := ⟨'\x01' :: "\"tled**************\"".data⟩

/-! ## Helper lemmas -/

theorem convert_ok {bytes : List Nat} {s : String}
    (h : utf8DecodeString bytes = some s) :
    convert_bytes_to_string bytes = .ok s := by
  unfold convert_bytes_to_string
  rw [h]

theorem validateE_ok (G : Gjson) (req : Request) (vc : Bool) (s : String)
    (hp : ¬ req.path = "") (hd : ¬ req.data = [])
    (hv : ¬ (vc = true ∧ req.value = ""))
    (hdec : utf8DecodeString req.data = some s)
    (hvalid : G.valid s = true) (hex : (G.get s req.path).exs = true) :
    validateE G req vc = .ok () := by
  unfold validateE
  rw [if_neg hp, if_neg hd, if_neg hv, hdec]
  simp [hvalid, hex]

theorem validate_request_ok (G : Gjson) (req : Request) (vc : Bool) (s : String)
    (hp : ¬ req.path = "") (hd : ¬ req.data = [])
    (hv : ¬ (vc = true ∧ req.value = ""))
    (hdec : utf8DecodeString req.data = some s)
    (hvalid : G.valid s = true) (hex : (G.get s req.path).exs = true) :
    validate_request G req vc = .ok () := by
  unfold validate_request
  rw [validateE_ok G req vc s hp hd hv hdec hvalid hex]
  rfl

theorem str_ext {a b : String} (h : a.data = b.data) : a = b := by
  cases a
  cases b
  exact congrArg String.mk h

theorem quoteStr_data (s : String) :
    (quoteStr s).data = '\x22' :: (s.data ++ ['\x22']) := by
  simp [quoteStr, String.data_append]

theorem litGVal_quote (s : String) :
    litGVal (quoteStr s) = ⟨GKind.String, s, true⟩ := by
  unfold litGVal
  rw [quoteStr_data]
  simp [List.getLast?_concat, List.dropLast_concat]

theorem cG_setGetString : SetGetString cG := by
  intro d p s d' h
  have hd' : d' = (⟨'\x01' :: (quoteStr s).data⟩ : String) := by
    simpa [cG, cSet] using h.symm
  subst hd'
  have hq : (⟨(quoteStr s).data⟩ : String) = quoteStr s := rfl
  show (litGVal ⟨(quoteStr s).data⟩).kind = GKind.String ∧
    (litGVal ⟨(quoteStr s).data⟩).str = s
  rw [hq, litGVal_quote]
  exact ⟨rfl, rfl⟩

theorem cG_setGetText : SetGetText cG := by
  intro d p t d' h
  have hd' : d' = (⟨'\x01' :: t.data⟩ : String) := by
    simpa [cG, cSet] using h.symm
  subst hd'
  obtain ⟨l⟩ := t
  show gvalText (litGVal ⟨l⟩) = ⟨l⟩
  match l with
  | [] => rfl
  | c :: rest =>
    show gvalText
      (if c = '\x22' ∧ rest.getLast? = some '\x22' ∧ rest ≠ [] then
        ⟨GKind.String, ⟨rest.dropLast⟩, true⟩
      else ⟨GKind.Number, ⟨c :: rest⟩, true⟩) = ⟨c :: rest⟩
    by_cases hc : c = '\x22' ∧ rest.getLast? = some '\x22' ∧ rest ≠ []
    · rw [if_pos hc]
      obtain ⟨hc1, hc2, hc3⟩ := hc
      subst hc1
      have hlast : rest.getLast hc3 = '\x22' := by
        have h2 := List.getLast?_eq_getLast rest hc3
        rw [hc2] at h2
        exact (Option.some.inj h2).symm
      have hr : rest.dropLast ++ ['\x22'] = rest := by
        conv_rhs => rw [← List.dropLast_append_getLast hc3]
        rw [hlast]
      show quoteStr ⟨rest.dropLast⟩ = ⟨'\x22' :: rest⟩
      apply str_ext
      rw [quoteStr_data]
      show '\x22' :: (rest.dropLast ++ ['\x22']) = '\x22' :: rest
      rw [hr]
    · rw [if_neg hc]
      rfl

theorem cG_setTotal : SetTotal cG := by
  intro d p t _
  exact ⟨⟨'\x01' :: t.data⟩, rfl⟩

theorem validateE_value_irrel (G : Gjson) (data : List Nat) (path v₁ v₂ : String) :
    validateE G ⟨data, path, v₁⟩ false = validateE G ⟨data, path, v₂⟩ false := by
  unfold validateE
  simp

theorem mask_string_run (G : Gjson) (req : Request) (doc s : String)
    (hp : ¬ req.path = "") (hd : ¬ req.data = [])
    (hdec : utf8DecodeString req.data = some doc)
    (hvalid : G.valid doc = true)
    (hget : G.get doc req.path = ⟨GKind.String, s, true⟩) :
    mask G req = _mask G doc req.path '*' true := by
  have hex : (G.get doc req.path).exs = true := by rw [hget]
  have hval := validate_request_ok G req false doc hp hd (by simp) hdec hvalid hex
  unfold mask
  rw [hval, convert_ok hdec]
  show (match (G.get doc req.path).kind with
        | GKind.String => _mask G doc req.path '*' true
        | GKind.Number => _mask G doc req.path '0' false
        | _ => some (Except.error (TransformError.Generic
            ("unable to mask data: path \x27" ++ req.path ++ "\x27 is not a string or number")))) = _
  rw [hget]

theorem mask_number_run (G : Gjson) (req : Request) (doc s : String)
    (hp : ¬ req.path = "") (hd : ¬ req.data = [])
    (hdec : utf8DecodeString req.data = some doc)
    (hvalid : G.valid doc = true)
    (hget : G.get doc req.path = ⟨GKind.Number, s, true⟩) :
    mask G req = _mask G doc req.path '0' false := by
  have hex : (G.get doc req.path).exs = true := by rw [hget]
  have hval := validate_request_ok G req false doc hp hd (by simp) hdec hvalid hex
  unfold mask
  rw [hval, convert_ok hdec]
  show (match (G.get doc req.path).kind with
        | GKind.String => _mask G doc req.path '*' true
        | GKind.Number => _mask G doc req.path '0' false
        | _ => some (Except.error (TransformError.Generic
            ("unable to mask data: path \x27" ++ req.path ++ "\x27 is not a string or number")))) = _
  rw [hget]

theorem mask_other_run (G : Gjson) (req : Request) (doc : String)
    (hp : ¬ req.path = "") (hd : ¬ req.data = [])
    (hdec : utf8DecodeString req.data = some doc)
    (hvalid : G.valid doc = true)
    (hex : (G.get doc req.path).exs = true)
    (hks : ¬ (G.get doc req.path).kind = GKind.String)
    (hkn : ¬ (G.get doc req.path).kind = GKind.Number) :
    mask G req = some (.error (.Generic
      ("unable to mask data: path \x27" ++ req.path ++ "\x27 is not a string or number"))) := by
  have hval := validate_request_ok G req false doc hp hd (by simp) hdec hvalid hex
  unfold mask
  rw [hval, convert_ok hdec]
  show (match (G.get doc req.path).kind with
        | GKind.String => _mask G doc req.path '*' true
        | GKind.Number => _mask G doc req.path '0' false
        | _ => some (Except.error (TransformError.Generic
            ("unable to mask data: path \x27" ++ req.path ++ "\x27 is not a string or number")))) = _
  cases hk : (G.get doc req.path).kind
  case String => exact absurd hk hks
  case Number => exact absurd hk hkn
  all_goals rfl

theorem _mask_eq_some_quoted (G : Gjson) (data path : String) (c : Char)
    (m0 : String) (hmc : maskContent (G.get data path).str c = some m0) :
    _mask G data path c true =
      some (match G.setOverwrite data path (quoteStr m0) with
        | .error e => .error (.Generic ("unable to mask data: " ++ e))
        | .ok d => .ok d) := by
  unfold _mask
  rw [hmc]
  rfl

theorem _mask_eq_some_plain (G : Gjson) (data path : String) (c : Char)
    (m0 : String) (hmc : maskContent (G.get data path).str c = some m0) :
    _mask G data path c false =
      some (match G.setOverwrite data path m0 with
        | .error e => .error (.Generic ("unable to mask data: " ++ e))
        | .ok d => .ok d) := by
  unfold _mask
  rw [hmc]
  rfl

theorem _mask_eq_none (G : Gjson) (data path : String) (c : Char) (q : Bool)
    (hmc : maskContent (G.get data path).str c = none) :
    _mask G data path c q = none := by
  unfold _mask
  rw [hmc]

theorem obfuscate_string_run (G : Gjson) (D : String → String) (req : Request)
    (doc s : String)
    (hp : ¬ req.path = "") (hd : ¬ req.data = [])
    (hdec : utf8DecodeString req.data = some doc)
    (hvalid : G.valid doc = true)
    (hget : G.get doc req.path = ⟨GKind.String, s, true⟩) :
    obfuscate G D req =
      match G.setOverwrite doc req.path (quoteStr ("sha256:" ++ D s)) with
      | .error e => .error (.Generic ("unable to obfuscate data: " ++ e))
      | .ok d => .ok d := by
  have hex : (G.get doc req.path).exs = true := by rw [hget]
  have hval := validate_request_ok G req false doc hp hd (by simp) hdec hvalid hex
  unfold obfuscate
  rw [hval, convert_ok hdec]
  show (match (G.get doc req.path).kind with
        | GKind.String => _obfuscate G D doc req.path
        | _ => Except.error (TransformError.Generic
            ("unable to mask data: path \x27" ++ req.path ++ "\x27 is not a string or number"))) = _
  rw [hget]
  show _obfuscate G D doc req.path = _
  unfold _obfuscate
  rw [hget]
  rfl

theorem obfuscate_other_run (G : Gjson) (D : String → String) (req : Request)
    (doc : String)
    (hp : ¬ req.path = "") (hd : ¬ req.data = [])
    (hdec : utf8DecodeString req.data = some doc)
    (hvalid : G.valid doc = true)
    (hex : (G.get doc req.path).exs = true)
    (hks : ¬ (G.get doc req.path).kind = GKind.String) :
    obfuscate G D req = .error (.Generic
      ("unable to mask data: path \x27" ++ req.path ++ "\x27 is not a string or number")) := by
  have hval := validate_request_ok G req false doc hp hd (by simp) hdec hvalid hex
  unfold obfuscate
  rw [hval, convert_ok hdec]
  show (match (G.get doc req.path).kind with
        | GKind.String => _obfuscate G D doc req.path
        | _ => Except.error (TransformError.Generic
            ("unable to mask data: path \x27" ++ req.path ++ "\x27 is not a string or number"))) = _
  cases hk : (G.get doc req.path).kind
  case String => exact absurd hk hks
  all_goals rfl

theorem overwrite_run (G : Gjson) (req : Request) (doc : String)
    (hp : ¬ req.path = "") (hd : ¬ req.data = []) (hv : ¬ req.value = "")
    (hdec : utf8DecodeString req.data = some doc)
    (hvalid : G.valid doc = true)
    (hex : (G.get doc req.path).exs = true) :
    overwrite G req =
      match G.setOverwrite doc req.path req.value with
      | .error e => .error (.Generic ("unable to overwrite data: " ++ e))
      | .ok d => .ok d := by
  have hval := validate_request_ok G req true doc hp hd (by simp [hv]) hdec hvalid hex
  unfold overwrite
  rw [hval, convert_ok hdec]

/-! ## Claim theorems -/

/-- Claim C1 counterexample: the claim fails as stated.  On the multibyte
document at path `k` (content of two characters, UTF-8 byte length 3),
`num_chars_to_skip = 3 - 2 = 1` falls inside the first character's bytes
and the Rust byte slice panics, so `mask` returns no document at all; and
at path `e` (one character, byte length 2) the program masks 2 byte-counted
characters where the character-counted reading of the claim predicts 1. -/
theorem C1_mask_ratio_counterexample :
    mask uG ⟨utf8Encode uDoc, "k", ""⟩ = none ∧
    mask uG ⟨utf8Encode uDoc, "e", ""⟩ = some (.ok ⟨'\x01' :: "\"**\"".data⟩) ∧
    (uG.get (⟨'\x01' :: "\"**\"".data⟩ : String) "e").str = "**" ∧
    ¬ ("**" : String) = "*" ∧
    ("é" : String).length = 1 ∧ byteLen "é" = 2 ∧
    ("éa" : String).length = 2 ∧ byteLen "éa" = 3 ∧
    num_chars_to_mask 3 = 2 := by
  refine ⟨rfl, rfl, rfl, by decide, rfl, rfl, rfl, rfl, rfl⟩

/-- Claim C1 (amended): for every request whose path resolves to a String
value with unquoted content of UTF-8 byte length `L` such that
`L - round(0.8*L)` is a character boundary of the content, `mask` returns
a document whose value at that path is the characters of the first
`L - round(0.8*L)` bytes of the original content unchanged, followed by
`round(0.8*L)` repetitions of the mask character (when the index splits a
character the byte slice panics and no document is returned); in
particular `L = 0` masks nothing and `L = 1` masks the single character
with `num_chars_to_skip = 0`. -/
theorem C1_mask_ratio (G : Gjson) (req : Request) (doc s : String)
    (pre : List Char)
    (hG : SetGetString G) (hT : SetTotal G)
    (hp : ¬ req.path = "") (hd : ¬ req.data = [])
    (hdec : utf8DecodeString req.data = some doc)
    (hvalid : G.valid doc = true)
    (hget : G.get doc req.path = ⟨GKind.String, s, true⟩)
    (hpre : utf8Decode ((utf8Encode s).take
      (byteLen s - num_chars_to_mask (byteLen s))) = some pre) :
    (∃ d', mask G req = some (.ok d') ∧
      (G.get d' req.path).str =
        ⟨pre ++ List.replicate (num_chars_to_mask (byteLen s)) '*'⟩) ∧
    num_chars_to_mask 0 = 0 ∧ num_chars_to_mask 1 = 1 ∧
    1 - num_chars_to_mask 1 = 0 := by
  refine ⟨?_, rfl, rfl, rfl⟩
  have hex : (G.get doc req.path).exs = true := by rw [hget]
  have hstr : (G.get doc req.path).str = s := by rw [hget]
  have hmc : maskContent (G.get doc req.path).str '*' =
      some ⟨pre ++ List.replicate (num_chars_to_mask (byteLen s)) '*'⟩ := by
    rw [hstr]
    unfold maskContent
    rw [hpre]
  obtain ⟨d', hset⟩ := hT doc req.path
    (quoteStr ⟨pre ++ List.replicate (num_chars_to_mask (byteLen s)) '*'⟩) hex
  refine ⟨d', ?_, ?_⟩
  · rw [mask_string_run G req doc s hp hd hdec hvalid hget,
      _mask_eq_some_quoted G doc req.path '*' _ hmc, hset]
  · exact (hG doc req.path _ d' hset).2

/-- Claim C1 witness: on the scenario document at path `baz.qux` (content
`quux`, 4 ASCII bytes), the skip index 1 is a character boundary and
masking keeps 1 character and masks 3. -/
theorem C1_mask_ratio_witness :
    mask cG ⟨asciiBytes scenDoc, "baz.qux", ""⟩ =
      some (.ok ⟨'\x01' :: "\"q***\"".data⟩) ∧
    (cG.get (⟨'\x01' :: "\"q***\"".data⟩ : String) "baz.qux").str = "q***" := by
  obtain ⟨⟨d', h1, h2⟩, _⟩ :=
    C1_mask_ratio cG ⟨asciiBytes scenDoc, "baz.qux", ""⟩ scenDoc "quux" ['q']
      cG_setGetString cG_setTotal (by decide) (by decide) rfl rfl rfl rfl
  have hm : mask cG ⟨asciiBytes scenDoc, "baz.qux", ""⟩ =
      some (.ok ⟨'\x01' :: "\"q***\"".data⟩) := rfl
  refine ⟨hm, ?_⟩
  rw [hm] at h1
  have hd' : (⟨'\x01' :: "\"q***\"".data⟩ : String) = d' :=
    Except.ok.inj (Option.some.inj h1)
  rw [← hd'] at h2
  rw [h2]
  rfl

/-- Reassembling a value from its projections, used to normalise
kind and existence facts into a single structure equation. -/
theorem gval_eta (v : GVal) : v = ⟨v.kind, v.str, v.exs⟩ := rfl

/-- Claim C2: for every validated request, `mask` dispatches on the kind of
the value at the path: a String value is masked with `*` (at byte level;
the panic propagates) and the result is wrapped in double quotes before
write-back, a Number value is masked with `0` and written back unquoted,
and any other kind makes `mask` return an error. -/
theorem C2_mask_dispatch (G : Gjson) (req : Request) (doc : String)
    (hp : ¬ req.path = "") (hd : ¬ req.data = [])
    (hdec : utf8DecodeString req.data = some doc)
    (hvalid : G.valid doc = true)
    (hex : (G.get doc req.path).exs = true) :
    ((G.get doc req.path).kind = GKind.String →
      mask G req = _mask G doc req.path '*' true ∧
      (∀ m0, maskContent (G.get doc req.path).str '*' = some m0 →
        mask G req =
          some (match G.setOverwrite doc req.path (quoteStr m0) with
            | .error e => .error (.Generic ("unable to mask data: " ++ e))
            | .ok d => .ok d)) ∧
      (maskContent (G.get doc req.path).str '*' = none → mask G req = none)) ∧
    ((G.get doc req.path).kind = GKind.Number →
      mask G req = _mask G doc req.path '0' false ∧
      (∀ m0, maskContent (G.get doc req.path).str '0' = some m0 →
        mask G req =
          some (match G.setOverwrite doc req.path m0 with
            | .error e => .error (.Generic ("unable to mask data: " ++ e))
            | .ok d => .ok d)) ∧
      (maskContent (G.get doc req.path).str '0' = none → mask G req = none)) ∧
    (¬ (G.get doc req.path).kind = GKind.String →
      ¬ (G.get doc req.path).kind = GKind.Number →
      mask G req = some (.error (.Generic
        ("unable to mask data: path \x27" ++ req.path ++ "\x27 is not a string or number")))) := by
  refine ⟨?_, ?_, ?_⟩
  · intro hk
    have hget := gval_eta (G.get doc req.path)
    rw [hk, hex] at hget
    have hrun := mask_string_run G req doc (G.get doc req.path).str hp hd hdec hvalid hget
    refine ⟨hrun, ?_, ?_⟩
    · intro m0 hmc
      rw [hrun, _mask_eq_some_quoted G doc req.path '*' m0 hmc]
    · intro hmc
      rw [hrun, _mask_eq_none G doc req.path '*' true hmc]
  · intro hk
    have hget := gval_eta (G.get doc req.path)
    rw [hk, hex] at hget
    have hrun := mask_number_run G req doc (G.get doc req.path).str hp hd hdec hvalid hget
    refine ⟨hrun, ?_, ?_⟩
    · intro m0 hmc
      rw [hrun, _mask_eq_some_plain G doc req.path '0' m0 hmc]
    · intro hmc
      rw [hrun, _mask_eq_none G doc req.path '0' false hmc]
  · intro hks hkn
    exact mask_other_run G req doc hp hd hdec hvalid hex hks hkn

/-- Claim C2 witness: on the scenario document, masking the String at
`baz.qux` re-quotes a `*`-masked value, and masking the Bool at `bool`
fails with the not-a-string-or-number error. -/
theorem C2_mask_dispatch_witness :
    mask cG ⟨asciiBytes scenDoc, "baz.qux", ""⟩ =
      some (.ok ⟨'\x01' :: "\"q***\"".data⟩) ∧
    mask cG ⟨asciiBytes scenDoc, "bool", ""⟩ = some (.error (.Generic
      ("unable to mask data: path \x27bool\x27 is not a string or number"))) := by
  constructor
  · have h := ((C2_mask_dispatch cG ⟨asciiBytes scenDoc, "baz.qux", ""⟩ scenDoc
      (by decide) (by decide) rfl rfl rfl).1 rfl).2.1 "q***" rfl
    rw [h]
    rfl
  · have h := (C2_mask_dispatch cG ⟨asciiBytes scenDoc, "bool", ""⟩ scenDoc
      (by decide) (by decide) rfl rfl rfl).2.2 (by decide) (by decide)
    rw [h]
    rfl

theorem mask_value_irrel (G : Gjson) (data : List Nat) (path v₁ v₂ : String) :
    mask G ⟨data, path, v₁⟩ = mask G ⟨data, path, v₂⟩ := by
  have hv : validate_request G ⟨data, path, v₁⟩ false =
      validate_request G ⟨data, path, v₂⟩ false := by
    unfold validate_request
    rw [validateE_value_irrel]
  unfold mask
  rw [hv]

theorem obfuscate_value_irrel (G : Gjson) (D : String → String)
    (data : List Nat) (path v₁ v₂ : String) :
    obfuscate G D ⟨data, path, v₁⟩ = obfuscate G D ⟨data, path, v₂⟩ := by
  have hv : validate_request G ⟨data, path, v₁⟩ false =
      validate_request G ⟨data, path, v₂⟩ false := by
    unfold validate_request
    rw [validateE_value_irrel]
  unfold obfuscate
  rw [hv]

/-- Claim C3: for every request whose path resolves to a String value,
`obfuscate` replaces that value with the JSON string literal made of a
double quote, the literal text `sha256:`, the digest of the unquoted
content, and a closing quote; and `obfuscate` is deterministic in the
document and path. -/
theorem C3_obfuscate_digest (G : Gjson) (D : String → String) (req : Request)
    (doc s : String) (hG : SetGetString G) (hT : SetTotal G)
    (hp : ¬ req.path = "") (hd : ¬ req.data = [])
    (hdec : utf8DecodeString req.data = some doc)
    (hvalid : G.valid doc = true)
    (hget : G.get doc req.path = ⟨GKind.String, s, true⟩) :
    (∃ d', obfuscate G D req = .ok d' ∧
      (G.get d' req.path).kind = GKind.String ∧
      (G.get d' req.path).str = "sha256:" ++ D s) ∧
    (∀ r : Request, r.data = req.data → r.path = req.path →
      obfuscate G D r = obfuscate G D req) := by
  constructor
  · have hex : (G.get doc req.path).exs = true := by rw [hget]
    obtain ⟨d', hset⟩ := hT doc req.path (quoteStr ("sha256:" ++ D s)) hex
    refine ⟨d', ?_, ?_, ?_⟩
    · rw [obfuscate_string_run G D req doc s hp hd hdec hvalid hget, hset]
    · exact (hG doc req.path ("sha256:" ++ D s) d' hset).1
    · exact (hG doc req.path ("sha256:" ++ D s) d' hset).2
  · intro r h1 h2
    obtain ⟨rd, rp, rv⟩ := r
    obtain ⟨qd, qp, qv⟩ := req
    simp only at h1 h2
    subst h1
    subst h2
    exact obfuscate_value_irrel G D rd rp rv qv

/-- Claim C3 witness: obfuscating the scenario document at `foo`
(content `bar`) with a concrete digest function writes the quoted
`sha256:`-prefixed digest. -/
theorem C3_obfuscate_digest_witness :
    obfuscate cG (fun _ => "abc123") ⟨asciiBytes scenDoc, "foo", ""⟩ =
      .ok ⟨'\x01' :: "\"sha256:abc123\"".data⟩ ∧
    (cG.get (⟨'\x01' :: "\"sha256:abc123\"".data⟩ : String) "foo").str =
      "sha256:abc123" := by
  obtain ⟨⟨d', h1, _hk, h2⟩, _⟩ :=
    C3_obfuscate_digest cG (fun _ => "abc123") ⟨asciiBytes scenDoc, "foo", ""⟩
      scenDoc "bar" cG_setGetString cG_setTotal (by decide) (by decide) rfl rfl rfl
  have hm : obfuscate cG (fun _ => "abc123") ⟨asciiBytes scenDoc, "foo", ""⟩ =
      .ok ⟨'\x01' :: "\"sha256:abc123\"".data⟩ := rfl
  refine ⟨hm, ?_⟩
  rw [hm] at h1
  rw [Except.ok.inj h1, h2]
  rfl

/-- Claim C4: for every validated request whose path resolves to a value of
any kind other than String, `obfuscate` fails with a Generic error whose
message says the path is not a string or number. -/
theorem C4_obfuscate_guard (G : Gjson) (D : String → String) (req : Request)
    (doc : String)
    (hp : ¬ req.path = "") (hd : ¬ req.data = [])
    (hdec : utf8DecodeString req.data = some doc)
    (hvalid : G.valid doc = true)
    (hex : (G.get doc req.path).exs = true)
    (hk : ¬ (G.get doc req.path).kind = GKind.String) :
    obfuscate G D req = .error (.Generic
      ("unable to mask data: path \x27" ++ req.path ++ "\x27 is not a string or number")) :=
  obfuscate_other_run G D req doc hp hd hdec hvalid hex hk

/-- Claim C4 witness: obfuscating the Bool value at path `bool` in the
scenario document fails with the not-a-string-or-number error. -/
theorem C4_obfuscate_guard_witness :
    obfuscate cG (fun s => s) ⟨asciiBytes scenDoc, "bool", ""⟩ = .error (.Generic
      "unable to mask data: path \x27bool\x27 is not a string or number") := by
  have h := C4_obfuscate_guard cG (fun s => s) ⟨asciiBytes scenDoc, "bool", ""⟩
    scenDoc (by decide) (by decide) rfl rfl rfl (by decide)
  rw [h]
  rfl

/-- Claim C8: the results of `obfuscate` and `mask` do not depend on the
request's replacement value field. -/
theorem C8_replacement_independent (G : Gjson) (D : String → String)
    (data : List Nat) (path v₁ v₂ : String) :
    obfuscate G D ⟨data, path, v₁⟩ = obfuscate G D ⟨data, path, v₂⟩ ∧
    mask G ⟨data, path, v₁⟩ = mask G ⟨data, path, v₂⟩ :=
  ⟨obfuscate_value_irrel G D data path v₁ v₂, mask_value_irrel G data path v₁ v₂⟩

/-- Claim C5: `validate_request` checks, in order: path non-empty, document
non-empty, (when required) replacement non-empty, document valid UTF-8,
document valid JSON, path exists, short-circuiting at the first failure —
so an empty path fails before any parsing, encoding is checked before JSON
validity, and a missing path fails only after validity; `overwrite`
validates with the replacement check enabled, `obfuscate` and `mask` with
it disabled. -/
theorem C5_validation_order (G : Gjson) (D : String → String) (req : Request)
    (vc : Bool) :
    (req.path = "" → validateE G req vc = .error .EmptyPath) ∧
    (¬ req.path = "" → req.data = [] → validateE G req vc = .error .EmptyData) ∧
    (¬ req.path = "" → ¬ req.data = [] → vc = true → req.value = "" →
      validateE G req vc = .error .EmptyValue) ∧
    (¬ req.path = "" → ¬ req.data = [] → ¬ (vc = true ∧ req.value = "") →
      utf8DecodeString req.data = none → validateE G req vc = .error .BadUtf8) ∧
    (∀ s, ¬ req.path = "" → ¬ req.data = [] → ¬ (vc = true ∧ req.value = "") →
      utf8DecodeString req.data = some s → G.valid s = false →
      validateE G req vc = .error (.BadJson (some s))) ∧
    (∀ s, ¬ req.path = "" → ¬ req.data = [] → ¬ (vc = true ∧ req.value = "") →
      utf8DecodeString req.data = some s → G.valid s = true →
      (G.get s req.path).exs = false →
      validateE G req vc = .error (.PathNotFound req.path)) ∧
    (∀ e, validate_request G req true = .error e → overwrite G req = .error e) ∧
    (∀ e, validate_request G req false = .error e → obfuscate G D req = .error e) ∧
    (∀ e, validate_request G req false = .error e → mask G req = some (.error e)) ∧
    (¬ validateE G req false = .error .EmptyValue) := by
  refine ⟨?_, ?_, ?_, ?_, ?_, ?_, ?_, ?_, ?_, ?_⟩
  · intro h1
    unfold validateE
    rw [if_pos h1]
  · intro h1 h2
    unfold validateE
    rw [if_neg h1, if_pos h2]
  · intro h1 h2 h3 h4
    unfold validateE
    rw [if_neg h1, if_neg h2, if_pos ⟨h3, h4⟩]
  · intro h1 h2 h3 h4
    unfold validateE
    rw [if_neg h1, if_neg h2, if_neg h3, h4]
  · intro s h1 h2 h3 h4 h5
    unfold validateE
    rw [if_neg h1, if_neg h2, if_neg h3, h4]
    simp [h5]
  · intro s h1 h2 h3 h4 h5 h6
    unfold validateE
    rw [if_neg h1, if_neg h2, if_neg h3, h4]
    simp [h5, h6]
  · intro e h
    unfold overwrite
    rw [h]
  · intro e h
    unfold obfuscate
    rw [h]
  · intro e h
    unfold mask
    rw [h]
  · intro h
    unfold validateE at h
    split at h
    · simp at h
    · split at h
      · simp at h
      · split at h
        · rename_i hcond
          exact absurd hcond (by simp)
        · split at h
          · simp at h
          · split at h
            · simp at h
            · split at h
              · simp at h
              · simp at h

/-- Claim C5 witness: each validation failure observed at a concrete
request, in order, and each transformer propagating a validation error. -/
theorem C5_validation_order_witness :
    validateE cG ⟨[255], "", ""⟩ true = .error .EmptyPath ∧
    validateE cG ⟨[], "p", ""⟩ true = .error .EmptyData ∧
    validateE cG ⟨[65], "p", ""⟩ true = .error .EmptyValue ∧
    validateE cG ⟨[255], "p", "v"⟩ true = .error .BadUtf8 ∧
    validateE invalidJsonG ⟨asciiBytes scenDoc, "p", "v"⟩ true =
      .error (.BadJson (some scenDoc)) ∧
    validateE cG ⟨asciiBytes scenDoc, "nope", "v"⟩ true =
      .error (.PathNotFound "nope") ∧
    overwrite cG ⟨[], "p", "v"⟩ = .error (.Generic "data cannot be empty") ∧
    obfuscate cG (fun s => s) ⟨[], "p", "v"⟩ =
      .error (.Generic "data cannot be empty") ∧
    mask cG ⟨[], "p", "v"⟩ = some (.error (.Generic "data cannot be empty")) := by
  refine ⟨?_, ?_, ?_, ?_, ?_, ?_, ?_, ?_, ?_⟩
  · exact (C5_validation_order cG (fun s => s) ⟨[255], "", ""⟩ true).1 rfl
  · exact (C5_validation_order cG (fun s => s) ⟨[], "p", ""⟩ true).2.1
      (by decide) rfl
  · exact (C5_validation_order cG (fun s => s) ⟨[65], "p", ""⟩ true).2.2.1
      (by decide) (by decide) rfl rfl
  · exact (C5_validation_order cG (fun s => s) ⟨[255], "p", "v"⟩ true).2.2.2.1
      (by decide) (by decide) (by decide) rfl
  · exact (C5_validation_order invalidJsonG (fun s => s)
      ⟨asciiBytes scenDoc, "p", "v"⟩ true).2.2.2.2.1 scenDoc
      (by decide) (by decide) (by decide) rfl rfl
  · exact (C5_validation_order cG (fun s => s)
      ⟨asciiBytes scenDoc, "nope", "v"⟩ true).2.2.2.2.2.1 scenDoc
      (by decide) (by decide) (by decide) rfl rfl rfl
  · exact (C5_validation_order cG (fun s => s) ⟨[], "p", "v"⟩ true).2.2.2.2.2.2.1
      (.Generic "data cannot be empty") rfl
  · exact (C5_validation_order cG (fun s => s)
      ⟨[], "p", "v"⟩ true).2.2.2.2.2.2.2.1 (.Generic "data cannot be empty") rfl
  · exact (C5_validation_order cG (fun s => s)
      ⟨[], "p", "v"⟩ true).2.2.2.2.2.2.2.2.1 (.Generic "data cannot be empty") rfl

/-- Claim C6: for every valid document, existing path, and non-empty
replacement literal, `overwrite` succeeds and the value at that path in
the returned document equals the replacement text exactly as given,
regardless of the existing value's kind; no coercion or quoting is
performed. -/
theorem C6_overwrite_roundtrip (G : Gjson) (req : Request) (doc : String)
    (hG : SetGetText G) (hT : SetTotal G)
    (hp : ¬ req.path = "") (hd : ¬ req.data = []) (hv : ¬ req.value = "")
    (hdec : utf8DecodeString req.data = some doc)
    (hvalid : G.valid doc = true)
    (hex : (G.get doc req.path).exs = true) :
    ∃ d', overwrite G req = .ok d' ∧ gvalText (G.get d' req.path) = req.value := by
  obtain ⟨d', hset⟩ := hT doc req.path req.value hex
  refine ⟨d', ?_, ?_⟩
  · rw [overwrite_run G req doc hp hd hv hdec hvalid hex, hset]
  · exact hG doc req.path req.value d' hset

/-- Claim C6 witness: overwriting the Bool value at path `bool` of the
scenario document with the quoted literal succeeds and the value's text
is exactly the replacement. -/
theorem C6_overwrite_roundtrip_witness :
    overwrite cG ⟨asciiBytes scenDoc, "bool", "\"test\""⟩ =
      .ok ⟨'\x01' :: "\"test\"".data⟩ ∧
    gvalText (cG.get (⟨'\x01' :: "\"test\"".data⟩ : String) "bool") = "\"test\"" := by
  obtain ⟨d', h1, h2⟩ := C6_overwrite_roundtrip cG
    ⟨asciiBytes scenDoc, "bool", "\"test\""⟩ scenDoc
    cG_setGetText cG_setTotal (by decide) (by decide) (by decide) rfl rfl rfl
  have hm : overwrite cG ⟨asciiBytes scenDoc, "bool", "\"test\""⟩ =
      .ok ⟨'\x01' :: "\"test\"".data⟩ := rfl
  refine ⟨hm, ?_⟩
  rw [hm] at h1
  rw [Except.ok.inj h1]
  exact h2

/-- Claim C7 counterexample: on the scenario document at path `recipient`
(content length 18), the masked value has length 18 with 14 mask
characters, not length 19 with 15 mask characters as the claim states. -/
theorem C7_scenario_counterexample :
    mask cG scenReq = some (.ok scenMaskedDoc) ∧
    (cG.get scenMaskedDoc "recipient").str.length = 18 ∧
    ¬ (cG.get scenMaskedDoc "recipient").str.length = 19 ∧
    num_chars_to_mask 18 = 14 ∧
    ¬ num_chars_to_mask 18 = 15 := by
  refine ⟨rfl, rfl, by decide, rfl, by decide⟩

/-- Claim C7 (amended): on the scenario document, masking `recipient`
succeeds and the value becomes `tled` followed by 14 `*` characters:
4 characters kept, 14 masked, total length 18. -/
theorem C7_scenario_amended :
    mask cG scenReq = some (.ok scenMaskedDoc) ∧
    cG.get scenMaskedDoc "recipient" =
      ⟨GKind.String, "tled**************", true⟩ ∧
    "tled**************" =
      ⟨"tledwichb9@wsj.com".data.take 4 ++ List.replicate 14 '*'⟩ ∧
    "tled**************".length = 18 := by
  refine ⟨rfl, rfl, by decide, rfl⟩

/-- Claim C9: in `_mask`, for every content length `L` the computed number
of characters to mask `round(0.8*L)` is at most `L`, so the subtraction
`L - num_chars_to_mask L` never underflows and the prefix slice index is
within bounds. -/
theorem C9_mask_count_bound (L : Nat) :
    num_chars_to_mask L ≤ L ∧ L - num_chars_to_mask L ≤ L := by
  unfold num_chars_to_mask
  omega

/-- Claim C10: the invalid-JSON branch of `validate_request` is reached
only when the request bytes decode as UTF-8, so the `unwrap` of
`String::from_utf8` in its error message can never panic: the error's
payload is always a successfully decoded string. -/
theorem C10_utf8_unwrap_safe (G : Gjson) (req : Request) (vc : Bool)
    (o : Option String)
    (h : validateE G req vc = .error (.BadJson o)) :
    ∃ s, o = some s ∧ utf8DecodeString req.data = some s := by
  unfold validateE at h
  split at h
  · simp at h
  · split at h
    · simp at h
    · split at h
      · simp at h
      · split at h
        · simp at h
        · rename_i s hdec
          split at h
          · simp only [Except.error.injEq, VError.BadJson.injEq] at h
            exact ⟨s, by rw [← h, hdec], hdec⟩
          · split at h
            · simp at h
            · simp at h

/-- Claim C10 witness: with an accessor that rejects every document as
JSON, validation of the scenario request fails in the invalid-JSON branch
and its payload is the decoded document. -/
theorem C10_utf8_unwrap_safe_witness :
    utf8DecodeString (asciiBytes scenDoc) = some scenDoc := by
  obtain ⟨s, h1, h2⟩ := C10_utf8_unwrap_safe invalidJsonG
    ⟨asciiBytes scenDoc, "p", ""⟩ false (some scenDoc) rfl
  cases Option.some.inj h1
  exact h2
